import Mathlib

/-!
Verification of the dynamic SQL filter compiler
`SolteqTandDatabase._construct_sql_statement` from
`mbu_dev_shared_components/solteqtand/db_handler.py`.

The compiler is a pure function from a base query string, an optional
AND-filter mapping, an optional list of OR-filter mappings, and an
order-by column/direction pair to a pair of (final query string,
positional parameter list).  We embed it shallowly: Python dicts become
association lists (which preserve insertion order, as Python dicts do),
Python's dynamically typed filter values become the inductive `PyVal`,
and Python string operations are modelled on the character list
underlying a Lean `String`.
-/

/-- A Python value as it can appear in a filter mapping: a string, an
integer, a boolean, `None`, a tuple, or a list.  Tuples and lists are
distinguished because the compiler dispatches on `isinstance(value, tuple)`
versus `isinstance(value, list)`. -/
inductive PyVal where
  | str (s : String)
  | int (n : Int)
  | bool (b : Bool)
  | none
  | tup (elems : List PyVal)
  | list (elems : List PyVal)

/-- Python's `sep.join(parts)`: the empty string on an empty list,
otherwise the parts interleaved with the separator. -/
def strJoin (sep : String) : List String → String
  | [] => ""
  | [a] => a
  | a :: b :: rest => a ++ sep ++ strJoin sep (b :: rest)

/-- Python's `"%" in value` test on a string value (substring search for
the single character `%`, i.e. character membership). -/
def likeMatch (s : String) : Bool := s.data.contains '%'

/-- Python's `str.upper()` restricted to ASCII letters, modelled
character by character on the underlying list. -/
def pyUpper (s : String) : String := ⟨s.data.map Char.toUpper⟩

/-- One entry of the AND-filter loop of `_construct_sql_statement`:
given a key/value pair, the predicate text appended to `where_clauses`
and the values appended to `params`.
* a 2-element tuple becomes `key BETWEEN ? AND ?` with both elements;
* a list becomes `key IN (?, …, ?)` with one placeholder per element;
* a string containing `%` becomes `key LIKE ?`;
* anything else (including tuples of other lengths) becomes `key = ?`. -/
def andClause (key : String) : PyVal → String × List PyVal
  | .tup [a, b] => (key ++ " BETWEEN ? AND ?", [a, b])
  | .list vs => (key ++ " IN (" ++ strJoin ", " (vs.map fun _ => "?") ++ ")", vs)
  | .str s =>
      if likeMatch s then (key ++ " LIKE ?", [.str s])
      else (key ++ " = ?", [.str s])
  | v => (key ++ " = ?", [v])

/-- One entry of the inner OR-filter loop: same classification as
`andClause` but with no BETWEEN case (the code only tests `list`,
`str` with `%`, and falls through to equality). -/
def orClause (key : String) : PyVal → String × List PyVal
  | .list vs => (key ++ " IN (" ++ strJoin ", " (vs.map fun _ => "?") ++ ")", vs)
  | .str s =>
      if likeMatch s then (key ++ " LIKE ?", [.str s])
      else (key ++ " = ?", [.str s])
  | v => (key ++ " = ?", [v])

/-- The AND-filter loop: accumulates `where_clauses` and `params` over
the entries of the filter mapping in insertion order. -/
def processAndFilters : List (String × PyVal) → List String × List PyVal
  | [] => ([], [])
  | (k, v) :: rest =>
      let cp := andClause k v
      let rec_ := processAndFilters rest
      (cp.1 :: rec_.1, cp.2 ++ rec_.2)

/-- The inner loop over one OR-filter mapping: accumulates
`sub_clauses` and `sub_params` over its entries in insertion order. -/
def processOrFilter : List (String × PyVal) → List String × List PyVal
  | [] => ([], [])
  | (k, v) :: rest =>
      let cp := orClause k v
      let rec_ := processOrFilter rest
      (cp.1 :: rec_.1, cp.2 ++ rec_.2)

/-- The outer loop over the OR-filter list: for each mapping, if its
`sub_clauses` is non-empty the clauses are joined with `' OR '`, wrapped
in parentheses and appended to `or_clauses`, and its `sub_params` are
appended to `params`; an empty mapping contributes nothing. -/
def processOrFilters : List (List (String × PyVal)) → List String × List PyVal
  | [] => ([], [])
  | g :: rest =>
      let sub := processOrFilter g
      let rec_ := processOrFilters rest
      if sub.1.isEmpty then rec_
      else (("(" ++ strJoin " OR " sub.1 ++ ")") :: rec_.1, sub.2 ++ rec_.2)

/-- `SolteqTandDatabase._construct_sql_statement`.  `filters = []`
models both `filters=None` and an empty dict (the `if filters:` guard
skips both, and a loop over an empty dict appends nothing, so the two
coincide); likewise for `or_filters`.  `order_by = Option.none` models
`order_by=None`; `some ""` is also skipped because the empty string is
falsy under Python's `if order_by:`. -/
def _construct_sql_statement (base_query : String)
    (filters : List (String × PyVal))
    (or_filters : List (List (String × PyVal)))
    (order_by : Option String)
    (order_direction : String) : String × List PyVal :=
  let wp := processAndFilters filters
  let op := processOrFilters or_filters
  let params := wp.2 ++ op.2
  let q1 :=
    if wp.1.isEmpty then base_query
    else base_query ++ " AND " ++ strJoin " AND " wp.1
  let q2 :=
    if op.1.isEmpty then q1
    else q1 ++ " AND (" ++ strJoin " OR " op.1 ++ ")"
  let q3 :=
    match order_by with
    | Option.none => q2
    | Option.some col =>
        if col = "" then q2
        else
          let d := if pyUpper order_direction ∈ ["ASC", "DESC"]
                   then pyUpper order_direction else "ASC"
          q2 ++ " ORDER BY " ++ col ++ " " ++ d
  (q3, params)

/-- Number of `?` characters in a string (placeholder count). -/
def countQ (s : String) : Nat := s.data.count '?'

/-- Parameter count an AND-filter entry contributes, by value shape:
a BETWEEN pair contributes 2, an IN list one per element,
equality/LIKE one. -/
def andContribution : PyVal → Nat
  | .tup [_, _] => 2
  | .list vs => vs.length
  | _ => 1

/-- Parameter count an OR-filter entry contributes: an IN list one per
element, equality/LIKE one (no BETWEEN case in OR context). -/
def orContribution : PyVal → Nat
  | .list vs => vs.length
  | _ => 1

/-- The parenthesized clause one non-empty OR-filter mapping contributes
to `or_clauses`: its entries' sub-clauses joined with `' OR '`. -/
def orGroupClause (g : List (String × PyVal)) : String :=
  "(" ++ strJoin " OR " (g.map fun p => (orClause p.1 p.2).1) ++ ")"

/-- Closed form of the query string built by `_construct_sql_statement`
(proved equal to it in `construct_eq`). -/
def compiledQuery (base : String) (fs : List (String × PyVal))
    (gs : List (List (String × PyVal))) (ob : Option String) (od : String) : String :=
  let q1 :=
    if fs.isEmpty then base
    else base ++ " AND " ++ strJoin " AND " (fs.map fun p => (andClause p.1 p.2).1)
  let orTexts := (gs.filter fun g => !g.isEmpty).map orGroupClause
  let q2 := if orTexts.isEmpty then q1 else q1 ++ " AND (" ++ strJoin " OR " orTexts ++ ")"
  match ob with
  | Option.none => q2
  | Option.some col =>
      if col = "" then q2
      else q2 ++ " ORDER BY " ++ col ++ " " ++
        (if pyUpper od ∈ ["ASC", "DESC"] then pyUpper od else "ASC")

/-- Closed form of the parameter list built by `_construct_sql_statement`:
all AND-filter parameters in mapping order, then the OR groups' parameters
in list order, each group's entries in mapping order. -/
def compiledParams (fs : List (String × PyVal))
    (gs : List (List (String × PyVal))) : List PyVal :=
  (fs.flatMap fun p => (andClause p.1 p.2).2)
    ++ gs.flatMap fun g => g.flatMap fun p => (orClause p.1 p.2).2

theorem isEmpty_map_eq (f : α → β) (l : List α) : (l.map f).isEmpty = l.isEmpty := by
  cases l <;> rfl

theorem processAndFilters_eq (fs : List (String × PyVal)) :
    processAndFilters fs
      = (fs.map fun p => (andClause p.1 p.2).1,
         fs.flatMap fun p => (andClause p.1 p.2).2) := by
  induction fs with
  | nil => rfl
  | cons p rest ih => cases p with
    | mk k v => simp [processAndFilters, ih]

theorem processOrFilter_eq (g : List (String × PyVal)) :
    processOrFilter g
      = (g.map fun p => (orClause p.1 p.2).1,
         g.flatMap fun p => (orClause p.1 p.2).2) := by
  induction g with
  | nil => rfl
  | cons p rest ih => cases p with
    | mk k v => simp [processOrFilter, ih]

theorem processOrFilters_eq (gs : List (List (String × PyVal))) :
    processOrFilters gs
      = ((gs.filter fun g => !g.isEmpty).map orGroupClause,
         gs.flatMap fun g => g.flatMap fun p => (orClause p.1 p.2).2) := by
  induction gs with
  | nil => rfl
  | cons g rest ih =>
      cases g with
      | nil => simp [processOrFilters, processOrFilter, ih]
      | cons p ps =>
          simp [processOrFilters, processOrFilter_eq, ih, orGroupClause,
            List.filter_cons]

/-- `_construct_sql_statement` in closed form: the query is
`compiledQuery` and the parameters are `compiledParams`. -/
theorem construct_eq (base : String) (fs : List (String × PyVal))
    (gs : List (List (String × PyVal))) (ob : Option String) (od : String) :
    _construct_sql_statement base fs gs ob od
      = (compiledQuery base fs gs ob od, compiledParams fs gs) := by
  simp only [_construct_sql_statement, compiledQuery, compiledParams,
    processAndFilters_eq, processOrFilters_eq, isEmpty_map_eq]

theorem countQ_append (a b : String) : countQ (a ++ b) = countQ a + countQ b := by
  simp [countQ, String.data_append, List.count_append]

theorem countQ_strJoin (sep : String) (h : countQ sep = 0) (l : List String) :
    countQ (strJoin sep l) = (l.map countQ).sum := by
  induction l with
  | nil => simp [strJoin, countQ]
  | cons a rest ih =>
      cases rest with
      | nil => simp [strJoin]
      | cons b rs =>
          simp only [strJoin, countQ_append, h, List.map_cons, List.sum_cons] at *
          omega

theorem sum_map_one (l : List α) : (l.map fun _ => (1 : Nat)).sum = l.length := by
  induction l with
  | nil => rfl
  | cons a t ih => simp [ih]; omega

theorem sum_map_addF (f g : α → Nat) (l : List α) :
    (l.map fun a => f a + g a).sum = (l.map f).sum + (l.map g).sum := by
  induction l with
  | nil => rfl
  | cons a t ih => simp [ih]; omega

theorem length_flatMap_eq (f : α → List β) (l : List α) :
    (l.flatMap f).length = (l.map fun a => (f a).length).sum := by
  induction l <;> simp [*]

/-- Each AND-filter clause holds exactly one `?` per parameter it
contributes, beyond any `?` already present in the key text. -/
theorem countQ_andClause (k : String) (v : PyVal) :
    countQ (andClause k v).1 = countQ k + (andClause k v).2.length := by
  cases v with
  | str s =>
      by_cases h : likeMatch s = true <;>
        simp [andClause, h, countQ_append] <;> decide
  | int n => simp [andClause, countQ_append] ; decide
  | bool b => simp [andClause, countQ_append] ; decide
  | none => simp [andClause, countQ_append] ; decide
  | list vs =>
      simp [andClause, countQ_append, countQ_strJoin ", " (by decide),
        List.map_map, Function.comp, sum_map_one]
      have h1 : countQ " IN (" = 0 := by decide
      have h2 : countQ ")" = 0 := by decide
      have h3 : countQ "?" = 1 := by decide
      simp [h1, h2, h3]
  | tup es =>
      match es with
      | [] => simp [andClause, countQ_append] ; decide
      | [a] => simp [andClause, countQ_append] ; decide
      | [a, b] => simp [andClause, countQ_append] ; decide
      | a :: b :: c :: rest => simp [andClause, countQ_append] ; decide

/-- Each OR-filter sub-clause holds exactly one `?` per parameter it
contributes, beyond any `?` already present in the key text. -/
theorem countQ_orClause (k : String) (v : PyVal) :
    countQ (orClause k v).1 = countQ k + (orClause k v).2.length := by
  cases v with
  | str s =>
      by_cases h : likeMatch s = true <;>
        simp [orClause, h, countQ_append] <;> decide
  | int n => simp [orClause, countQ_append] ; decide
  | bool b => simp [orClause, countQ_append] ; decide
  | none => simp [orClause, countQ_append] ; decide
  | tup es => simp [orClause, countQ_append] ; decide
  | list vs =>
      simp [orClause, countQ_append, countQ_strJoin ", " (by decide),
        List.map_map, Function.comp, sum_map_one]
      have h1 : countQ " IN (" = 0 := by decide
      have h2 : countQ ")" = 0 := by decide
      have h3 : countQ "?" = 1 := by decide
      simp [h1, h2, h3]

example :
    _construct_sql_statement "SELECT a FROM t WHERE 1=1"
      [("age", .tup [.int 18, .int 65])] [] Option.none "ASC"
      = ("SELECT a FROM t WHERE 1=1 AND age BETWEEN ? AND ?", [.int 18, .int 65]) := rfl

example :
    _construct_sql_statement "SELECT a FROM t WHERE 1=1"
      [] [[("type", .str "X")], [("type", .list [.str "Y", .str "Z"])]] Option.none "ASC"
      = ("SELECT a FROM t WHERE 1=1 AND ((type = ?) OR (type IN (?, ?)))",
         [.str "X", .str "Y", .str "Z"]) := rfl

example :
    _construct_sql_statement "Q" [("status", .list [.str "A", .str "B", .str "C"])]
      [] (Option.some "name") "desc"
      = ("Q AND status IN (?, ?, ?) ORDER BY name DESC",
         [.str "A", .str "B", .str "C"]) := rfl

example :
    _construct_sql_statement "Q" [] [] (Option.some "name") "weird"
      = ("Q ORDER BY name ASC", []) := rfl

theorem andClause_length (k : String) (v : PyVal) :
    (andClause k v).2.length = andContribution v := by
  cases v with
  | str s => by_cases h : likeMatch s = true <;> simp [andClause, andContribution, h]
  | int n => rfl
  | bool b => rfl
  | none => rfl
  | list vs => rfl
  | tup es =>
      match es with
      | [] => rfl
      | [a] => rfl
      | [a, b] => rfl
      | a :: b :: c :: rest => rfl

theorem orClause_length (k : String) (v : PyVal) :
    (orClause k v).2.length = orContribution v := by
  cases v with
  | str s => by_cases h : likeMatch s = true <;> simp [orClause, orContribution, h]
  | int n => rfl
  | bool b => rfl
  | none => rfl
  | list vs => rfl
  | tup es => rfl

/-- A parenthesized OR-group clause holds one `?` per parameter the
group contributes, beyond any `?` present in the keys. -/
theorem countQ_orGroupClause (g : List (String × PyVal)) :
    countQ (orGroupClause g)
      = (g.map fun p => countQ p.1).sum
        + (g.flatMap fun p => (orClause p.1 p.2).2).length := by
  have h0 : countQ "(" = 0 := by decide
  have h1 : countQ ")" = 0 := by decide
  simp only [orGroupClause, countQ_append, countQ_strJoin " OR " (by decide),
    List.map_map, Function.comp_def, length_flatMap_eq, h0, h1]
  simp only [countQ_orClause, sum_map_addF]
  omega

theorem countQ_orTexts (gs : List (List (String × PyVal))) :
    (((gs.filter fun g => !g.isEmpty).map orGroupClause).map countQ).sum
      = (gs.map fun g => (g.map fun p => countQ p.1).sum).sum
        + (gs.flatMap fun g => g.flatMap fun p => (orClause p.1 p.2).2).length := by
  induction gs with
  | nil => rfl
  | cons g rest ih =>
      cases g with
      | nil => simpa using ih
      | cons p ps =>
          simp only [List.filter_cons, List.isEmpty_cons, Bool.not_false,
            if_pos, List.map_cons, List.sum_cons, List.flatMap_cons,
            List.length_append, countQ_orGroupClause, length_flatMap_eq, ih]
          omega

theorem orParams_nil_of_allEmpty (gs : List (List (String × PyVal)))
    (h : ∀ g ∈ gs, g.isEmpty = true) :
    (gs.flatMap fun g => g.flatMap fun p => (orClause p.1 p.2).2) = [] := by
  induction gs with
  | nil => rfl
  | cons g rest ih =>
      have hg : g = [] := List.isEmpty_iff.mp (h g (List.mem_cons_self g rest))
      subst hg
      simpa using ih (fun g hg2 => h g (List.mem_cons_of_mem _ hg2))

/-- Splitting an `ORDER BY`-carrying compilation into the order-free
query plus the order suffix (the validated direction). -/
theorem compiledQuery_some (base : String) (fs : List (String × PyVal))
    (gs : List (List (String × PyVal))) (col : String) (od : String)
    (h : ¬col = "") :
    compiledQuery base fs gs (Option.some col) od
      = compiledQuery base fs gs Option.none od ++ " ORDER BY " ++ col ++ " "
          ++ (if pyUpper od ∈ ["ASC", "DESC"] then pyUpper od else "ASC") := by
  simp [compiledQuery, h]

theorem compiledQuery_some_empty (base : String) (fs : List (String × PyVal))
    (gs : List (List (String × PyVal))) (od : String) :
    compiledQuery base fs gs (Option.some "") od
      = compiledQuery base fs gs Option.none od := by
  simp [compiledQuery]

/-- The appended direction text is always `ASC` or `DESC`, hence free
of placeholders. -/
theorem countQ_direction (od : String) :
    countQ (if pyUpper od ∈ ["ASC", "DESC"] then pyUpper od else "ASC") = 0 := by
  by_cases h : pyUpper od ∈ ["ASC", "DESC"]
  · rw [if_pos h]
    simp only [List.mem_cons, List.mem_singleton, List.not_mem_nil, or_false] at h
    rcases h with h | h <;> rw [h] <;> decide
  · rw [if_neg h]; decide

theorem countQ_compiledQuery_none (base : String) (fs : List (String × PyVal))
    (gs : List (List (String × PyVal))) (od : String)
    (hf : ∀ p ∈ fs, countQ p.1 = 0)
    (ho : ∀ g ∈ gs, ∀ p ∈ g, countQ p.1 = 0) :
    countQ (compiledQuery base fs gs Option.none od)
      = countQ base + (compiledParams fs gs).length := by
  have handmap :
      (fs.map fun p => countQ (andClause p.1 p.2).1)
        = fs.map fun p => (andClause p.1 p.2).2.length := by
    refine List.map_congr_left (fun p hp => ?_)
    rw [countQ_andClause, hf p hp, Nat.zero_add]
  have hand :
      countQ (strJoin " AND " (fs.map fun p => (andClause p.1 p.2).1))
        = (fs.flatMap fun p => (andClause p.1 p.2).2).length := by
    rw [countQ_strJoin " AND " (by decide), List.map_map, length_flatMap_eq]
    simp only [Function.comp_def]
    rw [handmap]
  have hkeys0 :
      (gs.map fun g => (g.map fun p => countQ p.1).sum).sum = 0 := by
    refine List.sum_eq_zero (fun x hx => ?_)
    obtain ⟨g, hg, rfl⟩ := List.mem_map.mp hx
    refine List.sum_eq_zero (fun y hy => ?_)
    obtain ⟨p, hp, rfl⟩ := List.mem_map.mp hy
    exact ho g hg p hp
  have hor :
      countQ (strJoin " OR " ((gs.filter fun g => !g.isEmpty).map orGroupClause))
        = (gs.flatMap fun g => g.flatMap fun p => (orClause p.1 p.2).2).length := by
    rw [countQ_strJoin " OR " (by decide), countQ_orTexts, hkeys0, Nat.zero_add]
  have hparams : (compiledParams fs gs).length
      = (fs.flatMap fun p => (andClause p.1 p.2).2).length
        + (gs.flatMap fun g => g.flatMap fun p => (orClause p.1 p.2).2).length := by
    simp [compiledParams]
  simp only [compiledQuery]
  by_cases hfs : fs.isEmpty = true
  · have hfs2 : fs = [] := List.isEmpty_iff.mp hfs
    subst hfs2
    by_cases hgs : (((gs.filter fun g => !g.isEmpty).map orGroupClause)).isEmpty = true
    · rw [if_pos hfs, if_pos hgs]
      have hall : ∀ g ∈ gs, g.isEmpty = true := by
        intro g hg
        have h1 : (gs.filter fun g => !g.isEmpty) = [] := by
          rw [isEmpty_map_eq] at hgs
          exact List.isEmpty_iff.mp hgs
        have h2 := List.filter_eq_nil_iff.mp h1 g hg
        simpa using h2
      rw [hparams]
      simp [orParams_nil_of_allEmpty gs hall]
    · rw [if_pos hfs, if_neg hgs, countQ_append, countQ_append, countQ_append, hor,
        hparams]
      have hp1 : countQ " AND (" = 0 := by decide
      have hp2 : countQ ")" = 0 := by decide
      simp [hp1, hp2]
  · by_cases hgs : (((gs.filter fun g => !g.isEmpty).map orGroupClause)).isEmpty = true
    · rw [if_neg hfs, if_pos hgs, countQ_append, countQ_append, hand, hparams]
      have hall : ∀ g ∈ gs, g.isEmpty = true := by
        intro g hg
        have h1 : (gs.filter fun g => !g.isEmpty) = [] := by
          rw [isEmpty_map_eq] at hgs
          exact List.isEmpty_iff.mp hgs
        have h2 := List.filter_eq_nil_iff.mp h1 g hg
        simpa using h2
      have hp1 : countQ " AND " = 0 := by decide
      simp [hp1, orParams_nil_of_allEmpty gs hall]
    · rw [if_neg hfs, if_neg hgs, countQ_append, countQ_append, countQ_append,
        countQ_append, countQ_append, hand, hor, hparams]
      have hp1 : countQ " AND " = 0 := by decide
      have hp2 : countQ " AND (" = 0 := by decide
      have hp3 : countQ ")" = 0 := by decide
      simp [hp1, hp2, hp3]
      omega

/-- Under keys (and order-by column) free of `?`, the compiled query's
placeholder count is the base query's plus the parameter count. -/
theorem countQ_compiledQuery (base : String) (fs : List (String × PyVal))
    (gs : List (List (String × PyVal))) (ob : Option String) (od : String)
    (hf : ∀ p ∈ fs, countQ p.1 = 0)
    (ho : ∀ g ∈ gs, ∀ p ∈ g, countQ p.1 = 0)
    (hob : countQ (ob.getD "") = 0) :
    countQ (compiledQuery base fs gs ob od)
      = countQ base + (compiledParams fs gs).length := by
  cases ob with
  | none => exact countQ_compiledQuery_none base fs gs od hf ho
  | some col =>
      by_cases hcol : col = ""
      · subst hcol
        rw [compiledQuery_some_empty]
        exact countQ_compiledQuery_none base fs gs od hf ho
      · rw [compiledQuery_some base fs gs col od hcol]
        simp only [countQ_append]
        rw [countQ_compiledQuery_none base fs gs od hf ho, countQ_direction]
        have hcol0 : countQ col = 0 := by simpa using hob
        have hp1 : countQ " ORDER BY " = 0 := by decide
        have hp2 : countQ " " = 0 := by decide
        simp [hcol0, hp1, hp2]

/-- C1: For every call to the filter compiler with any base query,
AND-filter mapping, OR-filter-group list and order-by arguments (with
the filter keys and the order-by column free of literal `?`, so that
character counting measures exactly the markers the compiler adds), the
number of `?` placeholder markers the compiler adds to the query string
equals the length of the returned parameter list; that length is the sum
of per-entry contributions (BETWEEN 2, IN one per element, equality/LIKE
1); and the parameter list is exactly the per-entry parameter lists
flattened in the same left-to-right order as the corresponding clauses
(hence placeholders) are emitted. -/
theorem C1_placeholders_match_params (base : String) (fs : List (String × PyVal))
    (gs : List (List (String × PyVal))) (ob : Option String) (od : String)
    (hf : ∀ p ∈ fs, countQ p.1 = 0)
    (ho : ∀ g ∈ gs, ∀ p ∈ g, countQ p.1 = 0)
    (hob : countQ (ob.getD "") = 0) :
    countQ (_construct_sql_statement base fs gs ob od).1
      = countQ base + (_construct_sql_statement base fs gs ob od).2.length
    ∧ (_construct_sql_statement base fs gs ob od).2.length
        = (fs.map fun p => andContribution p.2).sum
          + (gs.map fun g => (g.map fun p => orContribution p.2).sum).sum
    ∧ (_construct_sql_statement base fs gs ob od).2
        = (fs.flatMap fun p => (andClause p.1 p.2).2)
          ++ gs.flatMap fun g => g.flatMap fun p => (orClause p.1 p.2).2 := by
  rw [construct_eq]
  refine ⟨countQ_compiledQuery base fs gs ob od hf ho hob, ?_, rfl⟩
  have e1 : (fs.map fun p => (andClause p.1 p.2).2.length)
      = fs.map fun p => andContribution p.2 :=
    List.map_congr_left fun p _ => andClause_length p.1 p.2
  have e2 : (gs.map fun g => (g.map fun p => (orClause p.1 p.2).2.length).sum)
      = gs.map fun g => (g.map fun p => orContribution p.2).sum :=
    List.map_congr_left fun g _ =>
      congrArg List.sum (List.map_congr_left fun p _ => orClause_length p.1 p.2)
  simp only [compiledParams, List.length_append, length_flatMap_eq]
  rw [e1, e2]

/-- Witness for C1 at a concrete input exercising BETWEEN, IN, LIKE,
equality, both OR shapes, an empty OR element and an ORDER BY. -/
theorem C1_placeholders_match_params_witness :
    countQ (_construct_sql_statement "SELECT x FROM t WHERE 1=1"
        [("age", .tup [.int 18, .int 65]), ("status", .list [.str "A", .str "B"]),
         ("name", .str "%J%"), ("flag", .bool true)]
        [[("type", .str "X")], [("t2", .list [.str "Y", .str "Z"]), ("t3", .str "W")], []]
        (Option.some "age") "desc").1
      = countQ "SELECT x FROM t WHERE 1=1"
        + (_construct_sql_statement "SELECT x FROM t WHERE 1=1"
            [("age", .tup [.int 18, .int 65]), ("status", .list [.str "A", .str "B"]),
             ("name", .str "%J%"), ("flag", .bool true)]
            [[("type", .str "X")], [("t2", .list [.str "Y", .str "Z"]), ("t3", .str "W")], []]
            (Option.some "age") "desc").2.length
    ∧ (_construct_sql_statement "SELECT x FROM t WHERE 1=1"
        [("age", .tup [.int 18, .int 65]), ("status", .list [.str "A", .str "B"]),
         ("name", .str "%J%"), ("flag", .bool true)]
        [[("type", .str "X")], [("t2", .list [.str "Y", .str "Z"]), ("t3", .str "W")], []]
        (Option.some "age") "desc").2.length
        = ([("age", PyVal.tup [.int 18, .int 65]), ("status", .list [.str "A", .str "B"]),
            ("name", .str "%J%"), ("flag", .bool true)].map
              fun p => andContribution p.2).sum
          + ([[("type", PyVal.str "X")], [("t2", .list [.str "Y", .str "Z"]), ("t3", .str "W")], []].map
              fun g => (g.map fun p => orContribution p.2).sum).sum
    ∧ (_construct_sql_statement "SELECT x FROM t WHERE 1=1"
        [("age", .tup [.int 18, .int 65]), ("status", .list [.str "A", .str "B"]),
         ("name", .str "%J%"), ("flag", .bool true)]
        [[("type", .str "X")], [("t2", .list [.str "Y", .str "Z"]), ("t3", .str "W")], []]
        (Option.some "age") "desc").2
        = ([("age", PyVal.tup [.int 18, .int 65]), ("status", .list [.str "A", .str "B"]),
            ("name", .str "%J%"), ("flag", .bool true)].flatMap
              fun p => (andClause p.1 p.2).2)
          ++ [[("type", PyVal.str "X")], [("t2", .list [.str "Y", .str "Z"]), ("t3", .str "W")], []].flatMap
              fun g => g.flatMap fun p => (orClause p.1 p.2).2 :=
  C1_placeholders_match_params "SELECT x FROM t WHERE 1=1"
    [("age", .tup [.int 18, .int 65]), ("status", .list [.str "A", .str "B"]),
     ("name", .str "%J%"), ("flag", .bool true)]
    [[("type", .str "X")], [("t2", .list [.str "Y", .str "Z"]), ("t3", .str "W")], []]
    (Option.some "age") "desc" (by decide) (by decide) (by decide)

/-- C2 counterexample: for the OR-filter group `[{"a": "X", "b": "Y"}]`
the compiled query joins the two conditions of the single element with
`OR`, not `AND`: the claim's internally-AND-ed reading would produce
`((a = ? AND b = ?))`, which differs from what the code emits. -/
theorem C2_counterexample :
    (_construct_sql_statement "SELECT x FROM t WHERE 1=1" []
        [[("a", .str "X"), ("b", .str "Y")]] Option.none "ASC").1
      = "SELECT x FROM t WHERE 1=1 AND ((a = ? OR b = ?))"
    ∧ (_construct_sql_statement "SELECT x FROM t WHERE 1=1" []
        [[("a", .str "X"), ("b", .str "Y")]] Option.none "ASC").1
      ≠ "SELECT x FROM t WHERE 1=1 AND ((a = ? AND b = ?))" := by
  refine ⟨rfl, ?_⟩
  decide

/-- C2 (amended): within each element of the OR-filter group the
conditions derived from that element's entries are OR-ed together (not
AND-ed), then the element is wrapped in parentheses and OR-ed with its
sibling elements, and the whole group is AND-ed (with one more
parenthesis layer) against everything else in the query; empty elements
contribute nothing. -/
theorem C2_or_group_composition (base : String) (fs : List (String × PyVal))
    (gs : List (List (String × PyVal))) (od : String) :
    (_construct_sql_statement base fs gs Option.none od).1
      = (if (gs.filter fun g => !g.isEmpty).isEmpty
         then (_construct_sql_statement base fs [] Option.none od).1
         else (_construct_sql_statement base fs [] Option.none od).1
           ++ " AND ("
           ++ strJoin " OR " ((gs.filter fun g => !g.isEmpty).map fun g =>
                "(" ++ strJoin " OR " (g.map fun p => (orClause p.1 p.2).1) ++ ")")
           ++ ")")
    ∧ (_construct_sql_statement base fs gs Option.none od).2
      = (_construct_sql_statement base fs [] Option.none od).2
          ++ gs.flatMap fun g => g.flatMap fun p => (orClause p.1 p.2).2 := by
  rw [construct_eq, construct_eq]
  constructor
  · simp only [compiledQuery, isEmpty_map_eq, List.filter_nil,
      List.map_nil, List.isEmpty_nil, if_pos]
    rfl
  · simp [compiledParams]

/-- C3: for `or_filters=[{"type": "X"}, {"type": ["Y","Z"]}]` and no AND
filters the compiled query is the base query followed by exactly
`AND ((type = ?) OR (type IN (?, ?)))` with parameters `["X","Y","Z"]`;
and in general the OR machinery builds each element's sub-predicates by
the IN/LIKE/equality rules, joins them with `OR`, wraps each element in
parentheses, and collects the group's clauses and parameters in order. -/
theorem C3_or_scenario (base : String) :
    _construct_sql_statement base []
        [[("type", .str "X")], [("type", .list [.str "Y", .str "Z"])]] Option.none "ASC"
      = (base ++ " AND ((type = ?) OR (type IN (?, ?)))",
         [.str "X", .str "Y", .str "Z"])
    ∧ ∀ gs : List (List (String × PyVal)),
        processOrFilters gs
          = ((gs.filter fun g => !g.isEmpty).map fun g =>
               "(" ++ strJoin " OR " (g.map fun p => (orClause p.1 p.2).1) ++ ")",
             gs.flatMap fun g => g.flatMap fun p => (orClause p.1 p.2).2) := by
  constructor
  · rw [construct_eq]
    refine Prod.ext ?_ rfl
    show base ++ " AND (" ++ "(type = ?) OR (type IN (?, ?))" ++ ")"
        = base ++ " AND ((type = ?) OR (type IN (?, ?)))"
    rw [String.append_assoc, String.append_assoc]
    exact congrArg (base ++ ·) (by decide)
  · exact fun gs => processOrFilters_eq gs

/-- C4: an AND-filter entry whose value is a 2-element tuple compiles to
`<key> BETWEEN ? AND ?` with the two elements appended in their given
order (no lower-bound/upper-bound validation: `a` and `b` are arbitrary);
in particular `filters={"age": (18, 65)}` yields a query containing
`age BETWEEN ? AND ?` with parameters `[18, 65]`. -/
theorem C4_between_pair (base k : String) (a b : PyVal) :
    andClause k (.tup [a, b]) = (k ++ " BETWEEN ? AND ?", [a, b])
    ∧ _construct_sql_statement base [(k, .tup [a, b])] [] Option.none "ASC"
        = (base ++ " AND " ++ k ++ " BETWEEN ? AND ?", [a, b])
    ∧ _construct_sql_statement base [("age", .tup [.int 18, .int 65])] [] Option.none "ASC"
        = (base ++ " AND age BETWEEN ? AND ?", [.int 18, .int 65]) := by
  refine ⟨rfl, ?_, ?_⟩
  · rw [construct_eq]
    refine Prod.ext ?_ rfl
    show base ++ " AND " ++ (k ++ " BETWEEN ? AND ?")
        = base ++ " AND " ++ k ++ " BETWEEN ? AND ?"
    rw [String.append_assoc (base ++ " AND ") k " BETWEEN ? AND ?"]
  · rw [construct_eq]
    refine Prod.ext ?_ rfl
    show base ++ " AND " ++ ("age" ++ " BETWEEN ? AND ?")
        = base ++ " AND age BETWEEN ? AND ?"
    rw [String.append_assoc]
    exact congrArg (base ++ ·) (by decide)

/-- C5: whenever a (non-empty, hence truthy) order-by column is given,
a direction whose uppercasing is outside {ASC, DESC} appends
`ORDER BY <col> ASC`, and a direction matching asc/desc
case-insensitively appends its uppercase normalization. -/
theorem C5_order_direction (base col od : String) (fs : List (String × PyVal))
    (gs : List (List (String × PyVal))) (h : ¬col = "") :
    (_construct_sql_statement base fs gs (Option.some col) od).1
      = (_construct_sql_statement base fs gs Option.none od).1
        ++ " ORDER BY " ++ col ++ " "
        ++ (if pyUpper od ∈ ["ASC", "DESC"] then pyUpper od else "ASC")
    ∧ (pyUpper od ∉ ["ASC", "DESC"] →
        (_construct_sql_statement base fs gs (Option.some col) od).1
          = (_construct_sql_statement base fs gs Option.none od).1
            ++ " ORDER BY " ++ col ++ " " ++ "ASC")
    ∧ (pyUpper od ∈ ["ASC", "DESC"] →
        (_construct_sql_statement base fs gs (Option.some col) od).1
          = (_construct_sql_statement base fs gs Option.none od).1
            ++ " ORDER BY " ++ col ++ " " ++ pyUpper od) := by
  rw [construct_eq, construct_eq]
  refine ⟨compiledQuery_some base fs gs col od h, fun hn => ?_, fun hy => ?_⟩
  · rw [compiledQuery_some base fs gs col od h, if_neg hn]
  · rw [compiledQuery_some base fs gs col od h, if_pos hy]

/-- Witness for C5: column `name`, direction `dEsC` (normalized to DESC)
on one instantiation is exercised through the third conjunct; the second
conjunct is vacuous there, and vice versa for direction `sideways`. -/
theorem C5_order_direction_witness :
    ((_construct_sql_statement "Q" [] [] (Option.some "name") "sideways").1
      = (_construct_sql_statement "Q" [] [] Option.none "sideways").1
        ++ " ORDER BY " ++ "name" ++ " "
        ++ (if pyUpper "sideways" ∈ ["ASC", "DESC"] then pyUpper "sideways" else "ASC")
    ∧ (pyUpper "sideways" ∉ ["ASC", "DESC"] →
        (_construct_sql_statement "Q" [] [] (Option.some "name") "sideways").1
          = (_construct_sql_statement "Q" [] [] Option.none "sideways").1
            ++ " ORDER BY " ++ "name" ++ " " ++ "ASC")
    ∧ (pyUpper "sideways" ∈ ["ASC", "DESC"] →
        (_construct_sql_statement "Q" [] [] (Option.some "name") "sideways").1
          = (_construct_sql_statement "Q" [] [] Option.none "sideways").1
            ++ " ORDER BY " ++ "name" ++ " " ++ pyUpper "sideways"))
    ∧ ((_construct_sql_statement "Q" [] [] (Option.some "name") "dEsC").1
      = (_construct_sql_statement "Q" [] [] Option.none "dEsC").1
        ++ " ORDER BY " ++ "name" ++ " "
        ++ (if pyUpper "dEsC" ∈ ["ASC", "DESC"] then pyUpper "dEsC" else "ASC")
    ∧ (pyUpper "dEsC" ∉ ["ASC", "DESC"] →
        (_construct_sql_statement "Q" [] [] (Option.some "name") "dEsC").1
          = (_construct_sql_statement "Q" [] [] Option.none "dEsC").1
            ++ " ORDER BY " ++ "name" ++ " " ++ "ASC")
    ∧ (pyUpper "dEsC" ∈ ["ASC", "DESC"] →
        (_construct_sql_statement "Q" [] [] (Option.some "name") "dEsC").1
          = (_construct_sql_statement "Q" [] [] Option.none "dEsC").1
            ++ " ORDER BY " ++ "name" ++ " " ++ pyUpper "dEsC")) :=
  ⟨C5_order_direction "Q" "name" "sideways" [] [] (by decide),
   C5_order_direction "Q" "name" "dEsC" [] [] (by decide)⟩

/-- C6: with no AND filters, an OR-filter list contributing no clauses
(every element empty — which subsumes the absent/empty list) and no
order-by, the compiler returns the base query unchanged and an empty
parameter list. -/
theorem C6_passthrough (base od : String) (gs : List (List (String × PyVal)))
    (h : ∀ g ∈ gs, g.isEmpty = true) :
    _construct_sql_statement base [] gs Option.none od = (base, []) := by
  rw [construct_eq]
  have hfil : (gs.filter fun g => !g.isEmpty) = [] := by
    rw [List.filter_eq_nil_iff]
    intro g hg
    simp [h g hg]
  refine Prod.ext ?_ ?_
  · simp [compiledQuery, hfil]
  · simp [compiledParams, orParams_nil_of_allEmpty gs h]

/-- Witness for C6 with an absent OR list and with one of empty groups. -/
theorem C6_passthrough_witness :
    _construct_sql_statement "SELECT i FROM t WHERE 1=1" [] [] Option.none "ASC"
      = ("SELECT i FROM t WHERE 1=1", [])
    ∧ _construct_sql_statement "SELECT i FROM t WHERE 1=1" [] [[], []] Option.none "ASC"
      = ("SELECT i FROM t WHERE 1=1", []) :=
  ⟨C6_passthrough "SELECT i FROM t WHERE 1=1" "ASC" [] (by decide),
   C6_passthrough "SELECT i FROM t WHERE 1=1" "ASC" [[], []] (by decide)⟩

/-- C7: for every combination of AND filters and OR-filter groups the
returned parameter list is all AND-filter parameters first, in mapping
(insertion) order, then the OR groups' parameters in list order, each
group element's parameters in that element's insertion order. -/
theorem C7_param_order (base : String) (fs : List (String × PyVal))
    (gs : List (List (String × PyVal))) (ob : Option String) (od : String) :
    (_construct_sql_statement base fs gs ob od).2
      = (fs.flatMap fun p => (andClause p.1 p.2).2)
        ++ gs.flatMap fun g => g.flatMap fun p => (orClause p.1 p.2).2 := by
  rw [construct_eq]
  rfl

/-- C8: an AND-filter entry whose value is the empty list compiles to
`<key> IN ()` (invalid SQL, left unguarded) and contributes no
parameters. -/
theorem C8_empty_in_list (base k : String) :
    andClause k (.list []) = (k ++ " IN ()", [])
    ∧ _construct_sql_statement base [(k, .list [])] [] Option.none "ASC"
        = (base ++ " AND " ++ k ++ " IN ()", []) := by
  have hclause : andClause k (.list []) = (k ++ " IN ()", []) := by
    show (k ++ " IN (" ++ "" ++ ")", ([] : List PyVal)) = (k ++ " IN ()", [])
    rw [String.append_empty, String.append_assoc]
    rfl
  refine ⟨hclause, ?_⟩
  rw [construct_eq]
  refine Prod.ext ?_ rfl
  show base ++ " AND " ++ strJoin " AND " [(andClause k (.list [])).1]
      = base ++ " AND " ++ k ++ " IN ()"
  rw [hclause]
  show base ++ " AND " ++ (k ++ " IN ()") = base ++ " AND " ++ k ++ " IN ()"
  rw [String.append_assoc (base ++ " AND ") k " IN ()"]

/-- C9: the compiler is a total function with no error branch: for every
input — arbitrary (even malformed) column-name strings, empty IN-lists,
unknown columns — it returns the pass-through compiled pair, performing
no validation at construction time. -/
theorem C9_total_no_errors (base : String) (fs : List (String × PyVal))
    (gs : List (List (String × PyVal))) (ob : Option String) (od : String) :
    _construct_sql_statement base fs gs ob od
      = (compiledQuery base fs gs ob od, compiledParams fs gs) :=
  construct_eq base fs gs ob od

/-- C10: an empty mapping in the OR-filter list is skipped entirely —
deleting it from the list leaves query and parameters unchanged — and
when every element is empty the result coincides with compiling with no
OR-filter list at all (no stray `AND ()` text). -/
theorem C10_empty_or_element_skipped (base od : String) (fs : List (String × PyVal))
    (pre post : List (List (String × PyVal))) (ob : Option String)
    (gs : List (List (String × PyVal))) (hgs : ∀ g ∈ gs, g.isEmpty = true) :
    _construct_sql_statement base fs (pre ++ [[]] ++ post) ob od
      = _construct_sql_statement base fs (pre ++ post) ob od
    ∧ _construct_sql_statement base fs gs ob od
      = _construct_sql_statement base fs [] ob od := by
  constructor
  · rw [construct_eq, construct_eq]
    have h1 : ((pre ++ [[]] ++ post).filter fun g => !g.isEmpty)
        = (pre ++ post).filter fun g => !g.isEmpty := by
      simp [List.filter_append]
    have h2 : ((pre ++ [[]] ++ post).flatMap fun g => g.flatMap fun p => (orClause p.1 p.2).2)
        = (pre ++ post).flatMap fun g => g.flatMap fun p => (orClause p.1 p.2).2 := by
      simp [List.flatMap_append]
    refine Prod.ext ?_ ?_
    · simp only [compiledQuery, h1]
    · simp only [compiledParams, h2]
  · rw [construct_eq, construct_eq]
    have hfil : (gs.filter fun g => !g.isEmpty) = [] := by
      rw [List.filter_eq_nil_iff]
      intro g hg
      simp [hgs g hg]
    refine Prod.ext ?_ ?_
    · simp [compiledQuery, hfil]
    · simp [compiledParams, orParams_nil_of_allEmpty gs hgs]

/-- Witness for C10: deleting the middle empty element of a three-element
OR list is a no-op, and an all-empty list equals no OR list at all. -/
theorem C10_empty_or_element_skipped_witness :
    _construct_sql_statement "Q" [("a", .int 1)]
        ([[("x", .int 2)]] ++ [[]] ++ [[("y", .int 3)]]) Option.none "ASC"
      = _construct_sql_statement "Q" [("a", .int 1)]
          ([[("x", .int 2)]] ++ [[("y", .int 3)]]) Option.none "ASC"
    ∧ _construct_sql_statement "Q" [("a", .int 1)] [[], []] Option.none "ASC"
      = _construct_sql_statement "Q" [("a", .int 1)] [] Option.none "ASC" :=
  C10_empty_or_element_skipped "Q" "ASC" [("a", .int 1)]
    [[("x", .int 2)]] [[("y", .int 3)]] Option.none [[], []] (by decide)
